import Mathlib

/-!
# Verification of the weather-factory-prediction feature pipeline and rule engine

Shallow embedding of

* `src/30_pipelines/mongo_examples/rolling_weather_windows.js` — the rolling
  window feature-builder aggregation pipeline (documents of the
  `weather_production_events` collection, `$setWindowFields` rolling windows,
  derived indicators, the actionable-insight filter, and the final projection);
* `src/unnamed/part_002` — the 7-rule weather heuristics engine
  (`humidity_curing_rule`, `temperature_efficiency_rule`,
  `safety_quality_override_rule`, and the master
  `WeatherBasedProductionEngine.execute_rules` loop);
* `src/20_logic/heuristics_rules.md` — the declarative rule table
  (Rule 2: Active Precipitation Response).

Numbers are modelled as exact rationals (`ℚ`); timestamps are rationals
measured in hours.  MongoDB `null` (the value of `$avg` over an empty window)
is modelled as `Option.none`, and the BSON comparison order used by `$gt`/`$lt`
(null sorts before every number) is modelled explicitly.
-/

/-- A document of the `weather_production_events` collection, as produced by
`agg_join_production_weather.js` Stage 9 and consumed by
`rolling_weather_windows.js`.  Only the fields the pipeline reads are kept:
`site_location.site_id`, `event_timestamp` (hours), `metrics.efficiency_ratio`,
`weather.conditions_6h.rainfall_total_in`,
`weather.conditions_24h.temperature_avg_f` and
`weather.conditions_24h.humidity_avg_pct`. -/
structure WPEvent where
  site_id : Nat
  ts : ℚ
  efficiency_ratio : ℚ
  rainfall_6h_in : ℚ
  temperature_avg_f : ℚ
  humidity_avg_pct : ℚ
deriving DecidableEq

/-- Membership of a document timestamp `s` in a `$setWindowFields` range window
`range: [lo, hi], unit: hour` anchored at the current document timestamp `t`.
MongoDB range windows are inclusive on both bounds. -/
def inWindow (t lo hi s : ℚ) : Bool :=
  decide (t + lo ≤ s) && decide (s ≤ t + hi)

/-- The documents of the collection that fall inside the window
`range: [lo, hi]` of the current document: same partition
(`partitionBy: "$site_location.site_id"`) and timestamp inside the inclusive
range anchored at `t`. -/
def windowDocs (events : List WPEvent) (site : Nat) (t lo hi : ℚ) : List WPEvent :=
  events.filter (fun d => d.site_id == site && inWindow t lo hi d.ts)

/-- MongoDB `$avg` over the values contributed by a window: `null` (`none`)
when the window is empty, otherwise the arithmetic mean. -/
def mongoAvg (xs : List ℚ) : Option ℚ :=
  if xs.isEmpty then none else some (xs.sum / (xs.length : ℚ))

/-- BSON-order `$gt` of a possibly-null left operand against a number:
`null` sorts before every number, so `$gt: [null, b]` is false. -/
def mongoGtNum : Option ℚ → ℚ → Bool
  | none, _ => false
  | some a, b => decide (b < a)

/-- BSON-order `$lt` of a possibly-null left operand against a number:
`null` sorts before every number, so `$lt: [null, b]` is true. -/
def mongoLtNum : Option ℚ → ℚ → Bool
  | none, _ => true
  | some a, b => decide (a < b)

/-- MongoDB `$subtract` with null propagation. -/
def mongoSub : Option ℚ → Option ℚ → Option ℚ
  | some a, some b => some (a - b)
  | _, _ => none

/-- MongoDB `$divide` with null propagation (the pipeline's guard ensures the
divisor is a strictly positive number whenever this is evaluated). -/
def mongoDiv : Option ℚ → Option ℚ → Option ℚ
  | some a, some b => some (a / b)
  | _, _ => none

/-- Stage 2 `efficiency_6h_avg`: `$avg` of `metrics.efficiency_ratio` over
`range: [-6, 0], unit: hour`. -/
def efficiency_6h_avg (events : List WPEvent) (e : WPEvent) : Option ℚ :=
  mongoAvg ((windowDocs events e.site_id e.ts (-6) 0).map (·.efficiency_ratio))

/-- Stage 2 `rainfall_6h_rolling`: `$sum` of
`weather.conditions_6h.rainfall_total_in` over `range: [-6, 0]`
(`$sum` of an empty window is `0`, never null). -/
def rainfall_6h_rolling (events : List WPEvent) (e : WPEvent) : ℚ :=
  ((windowDocs events e.site_id e.ts (-6) 0).map (·.rainfall_6h_in)).sum

/-- Stage 2 `temperature_24h_trend`: `$avg` of
`weather.conditions_24h.temperature_avg_f` over `range: [-24, 0]`. -/
def temperature_24h_trend (events : List WPEvent) (e : WPEvent) : Option ℚ :=
  mongoAvg ((windowDocs events e.site_id e.ts (-24) 0).map (·.temperature_avg_f))

/-- Stage 2 `humidity_24h_trend`: `$avg` of
`weather.conditions_24h.humidity_avg_pct` over `range: [-24, 0]`. -/
def humidity_24h_trend (events : List WPEvent) (e : WPEvent) : Option ℚ :=
  mongoAvg ((windowDocs events e.site_id e.ts (-24) 0).map (·.humidity_avg_pct))

/-- Stage 2 `efficiency_7d_baseline`: `$avg` of `metrics.efficiency_ratio` over
`range: [-168, -24], unit: hour` (7 days ago to 1 day ago). -/
def efficiency_7d_baseline (events : List WPEvent) (e : WPEvent) : Option ℚ :=
  mongoAvg ((windowDocs events e.site_id e.ts (-168) (-24)).map (·.efficiency_ratio))

/-- Stage 2 `production_events_6h`: `$count` over `range: [-6, 0]`. -/
def production_events_6h (events : List WPEvent) (e : WPEvent) : Nat :=
  (windowDocs events e.site_id e.ts (-6) 0).length

/-- Stage 3 `indicators.production_anomaly_flag`:
`$and` of `$lt: ["$efficiency_6h_avg", 0.85]` and
`$gt: ["$rainfall_6h_rolling", 0.5]` (the rainfall operand is a `$sum`, hence
always a number, while the `$avg` operand can be null). -/
def production_anomaly_flag (events : List WPEvent) (e : WPEvent) : Bool :=
  mongoLtNum (efficiency_6h_avg events e) 0.85 &&
    decide ((0.5 : ℚ) < rainfall_6h_rolling events e)

/-- Stage 3 `indicators.efficiency_degradation_6h`:
`$cond` on `$gt: ["$efficiency_7d_baseline", 0]`, then
`(baseline - efficiency_6h_avg) / baseline`, else `0`. -/
def efficiency_degradation_6h (events : List WPEvent) (e : WPEvent) : Option ℚ :=
  if mongoGtNum (efficiency_7d_baseline events e) 0 then
    mongoDiv (mongoSub (efficiency_7d_baseline events e) (efficiency_6h_avg events e))
      (efficiency_7d_baseline events e)
  else some 0

/-- Claim C6: the 7-day baseline window `[-168, -24]` is disjoint from the
6-hour short window `[-6, 0]`: a document selected by the baseline window of a
reference timestamp `t` is never selected by the short window of the same `t`,
so no record of the short window contributes to `efficiency_7d_baseline`. -/
theorem baseline_window_disjoint_from_short_window
    (events : List WPEvent) (site : Nat) (t : ℚ) (e : WPEvent)
    (hb : e ∈ windowDocs events site t (-168) (-24)) :
    e ∉ windowDocs events site t (-6) 0 := by
  intro hs
  unfold windowDocs at hb hs
  have hb2 := (List.mem_filter.mp hb).2
  have hs2 := (List.mem_filter.mp hs).2
  simp only [inWindow, Bool.and_eq_true, decide_eq_true_eq] at hb2 hs2
  linarith [hb2.2.2, hs2.2.1]

/-- Witness for C6: a concrete document 100 hours before the reference
timestamp is inside the baseline window and outside the short window. -/
theorem baseline_window_disjoint_from_short_window_witness :
    (⟨0, 0, 1, 0, 70, 60⟩ : WPEvent) ∈ windowDocs [⟨0, 0, 1, 0, 70, 60⟩] 0 100 (-168) (-24) ∧
    (⟨0, 0, 1, 0, 70, 60⟩ : WPEvent) ∉ windowDocs [⟨0, 0, 1, 0, 70, 60⟩] 0 100 (-6) 0 :=
  ⟨by norm_num [windowDocs, inWindow],
   baseline_window_disjoint_from_short_window _ _ _ _ (by norm_num [windowDocs, inWindow])⟩

/-- Every document selected by a window belongs to the underlying collection. -/
theorem mem_of_mem_windowDocs {events : List WPEvent} {site : Nat} {t lo hi : ℚ}
    {x : WPEvent} (hx : x ∈ windowDocs events site t lo hi) : x ∈ events :=
  (List.mem_filter.mp hx).1

/-- The current document always lies inside its own `range: [-6, 0]` window
(the window bounds are inclusive and contain offset `0`). -/
theorem self_mem_short_window (events : List WPEvent) (e : WPEvent) (he : e ∈ events) :
    e ∈ windowDocs events e.site_id e.ts (-6) 0 := by
  unfold windowDocs
  refine List.mem_filter.mpr ⟨he, ?_⟩
  simp only [inWindow, Bool.and_eq_true, decide_eq_true_eq, beq_self_eq_true, true_and]
  constructor <;> linarith

/-- The 6-hour efficiency average of a document of the collection is never
null, because the document itself contributes to its own window. -/
theorem efficiency_6h_avg_eq_some (events : List WPEvent) (e : WPEvent) (he : e ∈ events) :
    ∃ s, efficiency_6h_avg events e = some s := by
  have hmem := self_mem_short_window events e he
  have hne : windowDocs events e.site_id e.ts (-6) 0 ≠ [] := List.ne_nil_of_mem hmem
  obtain ⟨a, as, hcons⟩ := List.exists_cons_of_ne_nil hne
  exact ⟨_, by rw [efficiency_6h_avg, hcons]; rfl⟩

/-- If every efficiency ratio of the collection is nonnegative, so is the
6-hour efficiency average. -/
theorem efficiency_6h_avg_nonneg (events : List WPEvent) (e : WPEvent)
    (hnn : ∀ x, x ∈ events → 0 ≤ x.efficiency_ratio)
    {s : ℚ} (hs : efficiency_6h_avg events e = some s) : 0 ≤ s := by
  unfold efficiency_6h_avg mongoAvg at hs
  by_cases hempty :
      ((windowDocs events e.site_id e.ts (-6) 0).map (·.efficiency_ratio)).isEmpty = true
  · rw [if_pos hempty] at hs; cases hs
  · rw [if_neg hempty] at hs
    obtain rfl : _ = s := Option.some_injective _ hs
    apply div_nonneg
    · apply List.sum_nonneg
      intro x hx
      obtain ⟨d, hd, rfl⟩ := List.mem_map.mp hx
      exact hnn d (mem_of_mem_windowDocs hd)
    · exact Nat.cast_nonneg _

/-- Claim C2: when the 7-day baseline average exists and is positive, the
degradation indicator is exactly `(baseline - short_avg) / baseline` and is at
most `1` (for valid inputs, whose efficiency ratios are nonnegative); when the
baseline window is empty (fewer than the one-event minimum, so `$avg` is null)
or the baseline average is nonpositive, the division is skipped and the
indicator is the literal `0`. -/
theorem degradation_guard_and_upper_bound (events : List WPEvent) (e : WPEvent)
    (he : e ∈ events) (hnn : ∀ x, x ∈ events → 0 ≤ x.efficiency_ratio) :
    (∀ b, efficiency_7d_baseline events e = some b → 0 < b →
        ∃ s, efficiency_6h_avg events e = some s ∧
          efficiency_degradation_6h events e = some ((b - s) / b) ∧ (b - s) / b ≤ 1) ∧
    (efficiency_7d_baseline events e = none →
        efficiency_degradation_6h events e = some 0) ∧
    (∀ b, efficiency_7d_baseline events e = some b → b ≤ 0 →
        efficiency_degradation_6h events e = some 0) := by
  obtain ⟨s, hs⟩ := efficiency_6h_avg_eq_some events e he
  have hs0 : 0 ≤ s := efficiency_6h_avg_nonneg events e hnn hs
  refine ⟨?_, ?_, ?_⟩
  · intro b hb hbpos
    refine ⟨s, hs, ?_, ?_⟩
    · simp [efficiency_degradation_6h, hb, hs, mongoGtNum, mongoSub, mongoDiv, hbpos]
    · rw [div_le_one hbpos]
      linarith
  · intro hb
    simp [efficiency_degradation_6h, hb, mongoGtNum]
  · intro b hb hble
    simp [efficiency_degradation_6h, hb, mongoGtNum, not_lt.mpr hble]

/-- Witness for C2: two events of one site, 100 hours apart; for the later
event the baseline window holds exactly the earlier event (baseline average
`1 > 0`), the short window holds the event itself (short average `1/2`), and
the degradation indicator evaluates to `(1 - 1/2) / 1 = 1/2 ≤ 1`. -/
theorem degradation_guard_and_upper_bound_witness :
    ((⟨0, 100, 1/2, 0, 70, 60⟩ : WPEvent) ∈
        [(⟨0, 0, 1, 0, 70, 60⟩ : WPEvent), ⟨0, 100, 1/2, 0, 70, 60⟩]) ∧
    (∀ x, x ∈ [(⟨0, 0, 1, 0, 70, 60⟩ : WPEvent), ⟨0, 100, 1/2, 0, 70, 60⟩] →
        0 ≤ x.efficiency_ratio) ∧
    ((∀ b, efficiency_7d_baseline
            [(⟨0, 0, 1, 0, 70, 60⟩ : WPEvent), ⟨0, 100, 1/2, 0, 70, 60⟩]
            ⟨0, 100, 1/2, 0, 70, 60⟩ = some b → 0 < b →
        ∃ s, efficiency_6h_avg
            [(⟨0, 0, 1, 0, 70, 60⟩ : WPEvent), ⟨0, 100, 1/2, 0, 70, 60⟩]
            ⟨0, 100, 1/2, 0, 70, 60⟩ = some s ∧
          efficiency_degradation_6h
            [(⟨0, 0, 1, 0, 70, 60⟩ : WPEvent), ⟨0, 100, 1/2, 0, 70, 60⟩]
            ⟨0, 100, 1/2, 0, 70, 60⟩ = some ((b - s) / b) ∧ (b - s) / b ≤ 1) ∧
      (efficiency_7d_baseline
            [(⟨0, 0, 1, 0, 70, 60⟩ : WPEvent), ⟨0, 100, 1/2, 0, 70, 60⟩]
            ⟨0, 100, 1/2, 0, 70, 60⟩ = none →
        efficiency_degradation_6h
            [(⟨0, 0, 1, 0, 70, 60⟩ : WPEvent), ⟨0, 100, 1/2, 0, 70, 60⟩]
            ⟨0, 100, 1/2, 0, 70, 60⟩ = some 0) ∧
      (∀ b, efficiency_7d_baseline
            [(⟨0, 0, 1, 0, 70, 60⟩ : WPEvent), ⟨0, 100, 1/2, 0, 70, 60⟩]
            ⟨0, 100, 1/2, 0, 70, 60⟩ = some b → b ≤ 0 →
        efficiency_degradation_6h
            [(⟨0, 0, 1, 0, 70, 60⟩ : WPEvent), ⟨0, 100, 1/2, 0, 70, 60⟩]
            ⟨0, 100, 1/2, 0, 70, 60⟩ = some 0)) :=
  have hnn : ∀ x, x ∈ [(⟨0, 0, 1, 0, 70, 60⟩ : WPEvent), ⟨0, 100, 1/2, 0, 70, 60⟩] →
      0 ≤ x.efficiency_ratio := by
    rintro x hx
    simp only [List.mem_cons, List.mem_singleton] at hx
    rcases hx with rfl | rfl | h
    · norm_num
    · norm_num
    · cases h
  ⟨by simp, hnn, degradation_guard_and_upper_bound _ _ (by simp) hnn⟩

/-- Claim C5: for any document of the collection, the production anomaly flag
is set if and only if the 6-hour efficiency average is below `0.85` AND the
6-hour rolling rainfall exceeds `0.5` — a conjunction, so the flag stays false
when only one of the two conditions holds. -/
theorem anomaly_flag_iff_conjunction (events : List WPEvent) (e : WPEvent)
    (he : e ∈ events) :
    (production_anomaly_flag events e = true ↔
      (∃ s, efficiency_6h_avg events e = some s ∧ s < 0.85) ∧
        (0.5 : ℚ) < rainfall_6h_rolling events e) := by
  obtain ⟨s, hs⟩ := efficiency_6h_avg_eq_some events e he
  simp [production_anomaly_flag, hs, mongoLtNum]

/-- Witness for C5: a single event with short-window efficiency `1/2 < 0.85`
and rainfall `1 > 0.5`; the anomaly flag equivalence is exercised there. -/
theorem anomaly_flag_iff_conjunction_witness :
    ((⟨0, 0, 1/2, 1, 70, 60⟩ : WPEvent) ∈ [(⟨0, 0, 1/2, 1, 70, 60⟩ : WPEvent)]) ∧
    (production_anomaly_flag [(⟨0, 0, 1/2, 1, 70, 60⟩ : WPEvent)] ⟨0, 0, 1/2, 1, 70, 60⟩ = true ↔
      (∃ s, efficiency_6h_avg [(⟨0, 0, 1/2, 1, 70, 60⟩ : WPEvent)] ⟨0, 0, 1/2, 1, 70, 60⟩
          = some s ∧ s < 0.85) ∧
        (0.5 : ℚ) < rainfall_6h_rolling [(⟨0, 0, 1/2, 1, 70, 60⟩ : WPEvent)]
          ⟨0, 0, 1/2, 1, 70, 60⟩) :=
  ⟨by simp, anomaly_flag_iff_conjunction _ _ (by simp)⟩

/-- Stage 3 `indicators.weather_severity_score` applied to a non-null 24h
humidity trend `h` and the 6h rolling rainfall `rain`:
`$add` of `$multiply [$min [rainfall, 2.0], 0.4]` and
`$multiply [$max [$subtract [90, humidity], $subtract [humidity, 30]], 0.01]`. -/
def severityFormula (rain h : ℚ) : ℚ :=
  min rain 2.0 * 0.4 + max (90 - h) (h - 30) * 0.01

/-- Stage 3 `indicators.weather_severity_score` of a document: the humidity
operand is the (window) `$avg`, null-propagated through
`$subtract`/`$max`/`$multiply`/`$add`; the rainfall operand is a `$sum`. -/
def weather_severity_score (events : List WPEvent) (e : WPEvent) : Option ℚ :=
  (humidity_24h_trend events e).map (fun h => severityFormula (rainfall_6h_rolling events e) h)

/-- Modelled from the spec: the severity score as the spec's §4.1 sentence
words it — a capped rainfall contribution plus a humidity penalty equal to the
larger of (humidity's distance ABOVE the high-humidity comfort ceiling of 90)
and (humidity's distance BELOW the low-humidity comfort floor of 30), scaled
by the same fixed constant 0.01.  This definition exists only to be compared
against `severityFormula`, which is translated from the pipeline source. -/
def severityFormulaSpecWords (rain h : ℚ) : ℚ :=
  min rain 2.0 * 0.4 + max (h - 90) (30 - h) * 0.01

/-- Counterexample to C4: at rainfall `0` and humidity `60` the pipeline's
score is `0.3` while the claimed distance-outside-the-comfort-band penalty
yields `-0.3`; the code multiplies `0.01` into `max (90 - h) (h - 30)`, the
reverse of a distance above the ceiling / below the floor. -/
theorem severity_score_not_distance_outside_band :
    severityFormula 0 60 = 0.3 ∧ severityFormulaSpecWords 0 60 = -0.3 ∧
      severityFormula 0 60 ≠ severityFormulaSpecWords 0 60 := by
  norm_num [severityFormula, severityFormulaSpecWords, min_def, max_def]

/-- Claim C4 as amended: `weather_severity_score` is the capped rainfall
contribution `min(rainfall, 2.0) * 0.4` plus a humidity term
`(30 + |humidity - 60|) * 0.01`: the code's `max (90 - h) (h - 30)` penalises
deviation from the 60% midpoint (the high reference 90 MINUS humidity, or
humidity MINUS the low reference 30), not distance outside the `[30, 90]`
band, so the humidity term never falls below `0.3`. -/
theorem severity_is_capped_rain_plus_deviation_from_60
    (events : List WPEvent) (e : WPEvent) :
    weather_severity_score events e =
      (humidity_24h_trend events e).map
        (fun h => min (rainfall_6h_rolling events e) 2.0 * 0.4 + (30 + |h - 60|) * 0.01) := by
  unfold weather_severity_score
  cases hH : humidity_24h_trend events e with
  | none => rfl
  | some h =>
    have hmax : max (90 - h) (h - 30) = 30 + |h - 60| := by
      rcases le_total h 60 with hle | hge
      · rw [max_eq_left (by linarith), abs_of_nonpos (by linarith)]
        ring
      · rw [max_eq_right (by linarith), abs_of_nonneg (by linarith)]
        ring
    simp [severityFormula, hmax]

/-- Claim C10: the humidity penalty term `max (90 - h) (h - 30) * 0.01` is at
least `0.3` for every humidity `h`, with the minimum `0.3` attained at
`h = 60`; hence for any document whose 6-hour rolling rainfall is nonnegative
the severity score is at least `0.3`, and with rainfall `2` the
severity-greater-than-`0.3` branch of the `weather_correlation` classifier is
reachable at every humidity level. -/
theorem severity_score_lower_bound (events : List WPEvent) (e : WPEvent)
    (hr : 0 ≤ rainfall_6h_rolling events e) :
    (∀ h : ℚ, (0.3 : ℚ) ≤ max (90 - h) (h - 30) * 0.01) ∧
    max (90 - (60 : ℚ)) (60 - 30) * 0.01 = 0.3 ∧
    (∀ s, weather_severity_score events e = some s → (0.3 : ℚ) ≤ s) ∧
    (∀ h : ℚ, (0.3 : ℚ) < severityFormula 2 h) := by
  have hmax : ∀ h : ℚ, (30 : ℚ) ≤ max (90 - h) (h - 30) := by
    intro h
    rcases le_total h 60 with hle | hge
    · exact le_trans (by linarith) (le_max_left _ _)
    · exact le_trans (by linarith) (le_max_right _ _)
  have hpen : ∀ h : ℚ, (0.3 : ℚ) ≤ max (90 - h) (h - 30) * 0.01 := by
    intro h
    have := mul_le_mul_of_nonneg_right (hmax h) (by norm_num : (0 : ℚ) ≤ 0.01)
    linarith [this]
  refine ⟨hpen, by norm_num [max_def], ?_, ?_⟩
  · intro s hs
    unfold weather_severity_score at hs
    cases hH : humidity_24h_trend events e with
    | none => rw [hH] at hs; cases hs
    | some h =>
      rw [hH] at hs
      obtain rfl : _ = s := Option.some_injective _ hs
      have hmin : (0 : ℚ) ≤ min (rainfall_6h_rolling events e) 2.0 :=
        le_min hr (by norm_num)
      have h1 : (0 : ℚ) ≤ min (rainfall_6h_rolling events e) 2.0 * 0.4 := by
        nlinarith [hmin]
      have h2 := hpen h
      unfold severityFormula
      linarith
  · intro h
    have h2 := hpen h
    unfold severityFormula
    have hmin : min (2 : ℚ) 2.0 = 2 := by norm_num
    rw [hmin]
    linarith

/-- Witness for C10: a single document with zero rainfall; its severity score
evaluates to exactly `0.3` and the bound is tight there. -/
theorem severity_score_lower_bound_witness :
    (0 : ℚ) ≤ rainfall_6h_rolling [(⟨0, 0, 1, 0, 70, 60⟩ : WPEvent)] ⟨0, 0, 1, 0, 70, 60⟩ ∧
    ((∀ h : ℚ, (0.3 : ℚ) ≤ max (90 - h) (h - 30) * 0.01) ∧
      max (90 - (60 : ℚ)) (60 - 30) * 0.01 = 0.3 ∧
      (∀ s, weather_severity_score [(⟨0, 0, 1, 0, 70, 60⟩ : WPEvent)] ⟨0, 0, 1, 0, 70, 60⟩
          = some s → (0.3 : ℚ) ≤ s) ∧
      (∀ h : ℚ, (0.3 : ℚ) < severityFormula 2 h)) :=
  ⟨by norm_num [rainfall_6h_rolling, windowDocs, inWindow],
   severity_score_lower_bound _ _ (by norm_num [rainfall_6h_rolling, windowDocs, inWindow])⟩

/-- Stage 5 `actionable_insights.weather_correlation`: `$cond` on the `$and`
of `$gt: [degradation, 0.05]` and `$gt: [severity, 0.3]`. -/
def weather_correlation (events : List WPEvent) (e : WPEvent) : String :=
  if mongoGtNum (efficiency_degradation_6h events e) 0.05 &&
      mongoGtNum (weather_severity_score events e) 0.3 then "LIKELY_WEATHER_RELATED"
  else "INVESTIGATE_OTHER_CAUSES"

/-- Stage 5 `actionable_insights.recommended_action`: `$switch` over the
anomaly flag, `$gt: [degradation, 0.15]` and `$gt: [severity, 0.7]`, with
default `CONTINUE_MONITORING`. -/
def recommended_action (events : List WPEvent) (e : WPEvent) : String :=
  if production_anomaly_flag events e then "IMMEDIATE_PARAMETER_ADJUSTMENT"
  else if mongoGtNum (efficiency_degradation_6h events e) 0.15 then "SCHEDULE_MAINTENANCE_CHECK"
  else if mongoGtNum (weather_severity_score events e) 0.7 then "CONSIDER_PRODUCTION_HOLD"
  else "CONTINUE_MONITORING"

/-- Stage 4 `$match` filter on actionable insights: degradation above `0.1`,
or severity above `0.6`, or the anomaly flag set. -/
def actionableInsight (events : List WPEvent) (e : WPEvent) : Bool :=
  mongoGtNum (efficiency_degradation_6h events e) 0.1 ||
    (mongoGtNum (weather_severity_score events e) 0.6 || production_anomaly_flag events e)

/-- An output record of the Stage 5 `$project`, as merged into
`production_weather_features`.  Identity fields the pipeline merely copies
without reading (`production.machine_class`, `material_variance`) are omitted;
`analysis_timestamp` is the pipeline's `new Date()`, i.e. the wall-clock
instant of the run, modelled as an explicit `now` input. -/
structure FeatureRecord where
  event_timestamp : ℚ
  site : Nat
  efficiency_current : ℚ
  efficiency_6h : Option ℚ
  efficiency_baseline : Option ℚ
  rainfall_6h : ℚ
  temperature_trend : Option ℚ
  humidity_trend : Option ℚ
  severity_score : Option ℚ
  efficiency_degradation_pct : Option ℚ
  correlation : String
  action : String
  analysis_timestamp : ℚ
deriving DecidableEq

/-- The Stage 5 `$project` applied to one surviving document: every field is
computed from the input series and the document, except `analysis_timestamp`
which records the run's wall clock (`new Date()`). -/
def buildFeatureRecord (now : ℚ) (events : List WPEvent) (e : WPEvent) : FeatureRecord :=
  { event_timestamp := e.ts
    site := e.site_id
    efficiency_current := e.efficiency_ratio
    efficiency_6h := efficiency_6h_avg events e
    efficiency_baseline := efficiency_7d_baseline events e
    rainfall_6h := rainfall_6h_rolling events e
    temperature_trend := temperature_24h_trend events e
    humidity_trend := humidity_24h_trend events e
    severity_score := weather_severity_score events e
    efficiency_degradation_pct := (efficiency_degradation_6h events e).map (fun d => d * 100)
    correlation := weather_correlation events e
    action := recommended_action events e
    analysis_timestamp := now }

/-- The whole pipeline run at wall-clock instant `now`: Stage 4 filters the
collection to actionable documents, Stage 5 projects each survivor. -/
def rollingPipeline (now : ℚ) (events : List WPEvent) : List FeatureRecord :=
  (events.filter (fun e => actionableInsight events e)).map (buildFeatureRecord now events)

/-- The run-independent part of an output record: every Stage 5 field except
the wall-clock `analysis_timestamp`. -/
structure FeatureRecordCore where
  event_timestamp : ℚ
  site : Nat
  efficiency_current : ℚ
  efficiency_6h : Option ℚ
  efficiency_baseline : Option ℚ
  rainfall_6h : ℚ
  temperature_trend : Option ℚ
  humidity_trend : Option ℚ
  severity_score : Option ℚ
  efficiency_degradation_pct : Option ℚ
  correlation : String
  action : String
deriving DecidableEq

/-- Projection dropping the wall-clock field of an output record. -/
def FeatureRecord.core (r : FeatureRecord) : FeatureRecordCore :=
  { event_timestamp := r.event_timestamp
    site := r.site
    efficiency_current := r.efficiency_current
    efficiency_6h := r.efficiency_6h
    efficiency_baseline := r.efficiency_baseline
    rainfall_6h := r.rainfall_6h
    temperature_trend := r.temperature_trend
    humidity_trend := r.humidity_trend
    severity_score := r.severity_score
    efficiency_degradation_pct := r.efficiency_degradation_pct
    correlation := r.correlation
    action := r.action }

/-- Counterexample to C3: one actionable input document, two runs of the
pipeline on the identical input series; the outputs are nonempty and differ,
because Stage 5 stamps `new Date()` (the run's wall clock) into
`analysis_timestamp`. -/
theorem pipeline_output_differs_between_runs :
    rollingPipeline 0 [(⟨0, 0, 1/2, 1, 70, 60⟩ : WPEvent)] ≠
        rollingPipeline 1 [(⟨0, 0, 1/2, 1, 70, 60⟩ : WPEvent)] ∧
      (rollingPipeline 0 [(⟨0, 0, 1/2, 1, 70, 60⟩ : WPEvent)]).length = 1 := by
  have hact : actionableInsight [(⟨0, 0, 1/2, 1, 70, 60⟩ : WPEvent)] ⟨0, 0, 1/2, 1, 70, 60⟩
      = true := by
    have hflag : production_anomaly_flag [(⟨0, 0, 1/2, 1, 70, 60⟩ : WPEvent)]
        ⟨0, 0, 1/2, 1, 70, 60⟩ = true := by
      norm_num [production_anomaly_flag, mongoLtNum, efficiency_6h_avg, rainfall_6h_rolling,
        windowDocs, inWindow, mongoAvg]
    unfold actionableInsight
    rw [hflag, Bool.or_true, Bool.or_true]
  have h0 : rollingPipeline 0 [(⟨0, 0, 1/2, 1, 70, 60⟩ : WPEvent)]
      = [buildFeatureRecord 0 [(⟨0, 0, 1/2, 1, 70, 60⟩ : WPEvent)] ⟨0, 0, 1/2, 1, 70, 60⟩] := by
    unfold rollingPipeline
    rw [List.filter_cons, List.filter_nil]
    simp only [hact, if_true, List.map_cons, List.map_nil]
  have h1 : rollingPipeline 1 [(⟨0, 0, 1/2, 1, 70, 60⟩ : WPEvent)]
      = [buildFeatureRecord 1 [(⟨0, 0, 1/2, 1, 70, 60⟩ : WPEvent)] ⟨0, 0, 1/2, 1, 70, 60⟩] := by
    unfold rollingPipeline
    rw [List.filter_cons, List.filter_nil]
    simp only [hact, if_true, List.map_cons, List.map_nil]
  refine ⟨?_, by rw [h0]; rfl⟩
  intro hEq
  rw [h0, h1] at hEq
  injection hEq with hhead htail
  have hproj := congrArg FeatureRecord.analysis_timestamp hhead
  simp only [buildFeatureRecord] at hproj
  exact absurd hproj (by norm_num)

/-- Claim C3 as amended: the pipeline is deterministic in everything except
the wall-clock stamp — two runs on the identical input series agree on every
output record field other than `analysis_timestamp` (same records, same
order). -/
theorem pipeline_deterministic_modulo_wall_clock (nowA nowB : ℚ) (events : List WPEvent) :
    (rollingPipeline nowA events).map FeatureRecord.core =
      (rollingPipeline nowB events).map FeatureRecord.core := by
  unfold rollingPipeline
  rw [List.map_map, List.map_map]
  rfl

/-! ## Rule engine (src/unnamed/part_002 and src/20_logic/heuristics_rules.md) -/

/-- Result of `humidity_curing_rule` (Rule 1 of `src/unnamed/part_002`); the
`confidence_score` field, computed by a helper absent from the repository, is
omitted. -/
structure HumidityRuleResult where
  adjusted_pre_mix_time : ℚ
  adjustment_factor : ℚ
  alert_level : String
  recommendation : String
deriving DecidableEq

/-- `humidity_curing_rule(humidity, base_pre_mix_time)`: four humidity tiers
with adjustment factors 1.30 / 1.15 / 0.90 / 1.0. -/
def humidity_curing_rule (humidity base_pre_mix_time : ℚ) : HumidityRuleResult :=
  if humidity > 75 then
    ⟨base_pre_mix_time * 1.30, 1.30, "HIGH", "Consider production hold if >85% humidity"⟩
  else if humidity > 65 then
    ⟨base_pre_mix_time * 1.15, 1.15, "MEDIUM", "Monitor quality closely"⟩
  else if humidity < 40 then
    ⟨base_pre_mix_time * 0.90, 0.90, "MEDIUM", "Increase material monitoring"⟩
  else
    ⟨base_pre_mix_time * 1.0, 1.0, "LOW", "Standard operations"⟩

/-- Result of `temperature_efficiency_rule` (Rule 2 of `src/unnamed/part_002`);
the `energy_impact` and `confidence_score` fields, computed by helpers absent
from the repository, are omitted. -/
structure TempRuleResult where
  adjusted_dryer_temp : ℚ
  adjusted_cooling_rate : ℚ
  production_status : String
  alert_level : String
deriving DecidableEq

/-- `temperature_efficiency_rule(temperature, base_dryer_temp,
base_cooling_rate)`: four temperature bands; the 75–85 °F band is the optimal
no-op (`dryer_adjustment = 0`, `cooling_adjustment = 1.0`). -/
def temperature_efficiency_rule (temperature base_dryer_temp base_cooling_rate : ℚ) :
    TempRuleResult :=
  if temperature > 95 then
    ⟨base_dryer_temp + (-15), base_cooling_rate * 1.5, "HOLD_RECOMMENDED", "CRITICAL"⟩
  else if temperature > 85 then
    ⟨base_dryer_temp + (-10), base_cooling_rate * 1.3, "ADJUST_PARAMETERS", "HIGH"⟩
  else if temperature < 65 then
    ⟨base_dryer_temp + 5, base_cooling_rate * 0.8, "ENERGY_OPTIMIZE", "LOW"⟩
  else
    ⟨base_dryer_temp + 0, base_cooling_rate * 1.0, "OPTIMAL", "LOW"⟩

/-- The weather-conditions object read by Rule 7 via attribute access. -/
structure WeatherConditions where
  temperature : ℚ
  humidity : ℚ
  wind_speed : ℚ
  precipitation : ℚ
deriving DecidableEq

/-- The `safety_thresholds` dict keys Rule 7 reads. -/
structure SafetyThresholds where
  max_temperature : ℚ
  max_humidity : ℚ
deriving DecidableEq

/-- The `type` tags of the override action dicts Rule 7 accumulates. -/
inductive OverrideAction
  | temperatureSafety
  | qualityProtection
  | extremeWeather
  | equipmentProtection
deriving DecidableEq

/-- Result of `safety_quality_override_rule` (Rule 7); the
`quality_requirements` and `operator_notifications` fields, computed by
helpers absent from the repository, are omitted. -/
structure SafetyRuleResult where
  safety_level : String
  override_actions : List OverrideAction
  production_status : String
deriving DecidableEq

/-- `safety_quality_override_rule(weather_conditions, production_status,
safety_thresholds)`: sequential temperature / humidity / extreme-weather /
equipment checks.  `check_equipment_limits` is a helper absent from the
repository; its `risk_level == HIGH` verdict enters as the input flag
`equipment_risk_high` (in the source it only appends an action, never touching
`safety_level` or `production_status`). -/
def safety_quality_override_rule (w : WeatherConditions) (production_status : String)
    (th : SafetyThresholds) (equipment_risk_high : Bool) : SafetyRuleResult :=
  let acts0 : List OverrideAction := []
  let level0 := "NORMAL"
  let acts1 := if w.temperature > th.max_temperature then
    acts0 ++ [OverrideAction.temperatureSafety] else acts0
  let level1 := if w.temperature > th.max_temperature then "CRITICAL" else level0
  let acts2 := if w.humidity > th.max_humidity then
    acts1 ++ [OverrideAction.qualityProtection] else acts1
  let level2 := if w.humidity > th.max_humidity then
    (if level1 ≠ "CRITICAL" then "HIGH" else level1) else level1
  let acts3 := if w.wind_speed > 40 ∨ w.precipitation > 2.0 then
    acts2 ++ [OverrideAction.extremeWeather] else acts2
  let level3 := if w.wind_speed > 40 ∨ w.precipitation > 2.0 then "CRITICAL" else level2
  let acts4 := if equipment_risk_high then
    acts3 ++ [OverrideAction.equipmentProtection] else acts3
  { safety_level := level3
    override_actions := acts4
    production_status := if level3 = "CRITICAL" then "HOLD" else production_status }

/-- A rule-result dict as seen by the master engine loop: the `rule_name` key
the loop writes, and the `safety_level` key (present only in Rule 7's dict,
absent — `none` — in every other rule's). -/
structure RuleResult where
  rule_name : String
  safety_level : Option String
deriving DecidableEq

/-- Python `hasattr(result, "safety_level")` where `result` is a plain dict
returned by a rule: `hasattr` inspects object attributes, not dictionary
keys, so it is `False` for every rule-result dict regardless of the keys the
dict holds.  This is the semantics of the check in
`WeatherBasedProductionEngine.execute_rules`. -/
def pyHasattrSafetyLevel (_ : RuleResult) : Bool := false

/-- What the `execute_rules` loop accumulates: the `rule_results` list and the
`override_required` flag. -/
structure EngineOutput where
  rule_results : List RuleResult
  override_required : Bool
deriving DecidableEq

/-- The `execute_rules` loop of `WeatherBasedProductionEngine`: each rule
invocation either returns a result dict (`Except.ok`) or raises
(`Except.error`).  A raise is caught, logged (`logger.error`) and the loop
continues with the next rule — nothing is appended for the failed rule.  A
returned dict gets `rule_name` set and is appended; `override_required` is
then set when `hasattr(result, "safety_level")` holds and the level is
CRITICAL. -/
def execute_rules_loop : List (String × Except String RuleResult) → EngineOutput
  | [] => ⟨[], false⟩
  | (nm, Except.ok r) :: rest =>
    let o := execute_rules_loop rest
    ⟨{ r with rule_name := nm } :: o.rule_results,
      (pyHasattrSafetyLevel r && (r.safety_level == some "CRITICAL")) || o.override_required⟩
  | (_, Except.error _) :: rest => execute_rules_loop rest

/-- The branch `consolidate_recommendations` takes: the safety-override path
(`handle_safety_override`) when `override_required` is set, otherwise
`normal_consolidation`.  The two handlers themselves are absent from the
repository; the claims inspect which branch runs. -/
inductive ConsolidationBranch
  | safetyOverride
  | normal
deriving DecidableEq

/-- `consolidate_recommendations` dispatch on `override_required`. -/
def consolidate_recommendations_branch (o : EngineOutput) : ConsolidationBranch :=
  if o.override_required then ConsolidationBranch.safetyOverride
  else ConsolidationBranch.normal

/-- The `hasattr` test on a dict never succeeds, so `override_required` is
false after every run of the `execute_rules` loop, whatever the rules
returned or raised. -/
theorem execute_rules_loop_override_false
    (outcomes : List (String × Except String RuleResult)) :
    (execute_rules_loop outcomes).override_required = false := by
  induction outcomes with
  | nil => rfl
  | cons p rest ih =>
    obtain ⟨nm, oc⟩ := p
    cases oc with
    | ok r => simp [execute_rules_loop, pyHasattrSafetyLevel, ih]
    | error e => simpa [execute_rules_loop] using ih

/-- Claim C1 (code bug): at the Scenario C failing input — temperature 110 °F
against a 105 °F hard maximum — the Safety Override Governor itself reaches
CRITICAL and HOLD, yet the engine's `hasattr(result, "safety_level")` test on
a dict never succeeds, so `override_required` is false for every possible
outcome list and `consolidate_recommendations` takes the
`normal_consolidation` branch even when Rule 7's CRITICAL dict is among the
results — the consolidated advisory is never forced to the safe baseline. -/
theorem safety_critical_never_forces_override :
    (safety_quality_override_rule ⟨110, 50, 10, 0⟩ "RUNNING" ⟨105, 85⟩ false).safety_level
        = "CRITICAL" ∧
    (safety_quality_override_rule ⟨110, 50, 10, 0⟩ "RUNNING" ⟨105, 85⟩ false).production_status
        = "HOLD" ∧
    (∀ outcomes, (execute_rules_loop outcomes).override_required = false) ∧
    consolidate_recommendations_branch (execute_rules_loop
        [("safety_quality_override_rule", Except.ok
          ⟨"safety_quality_override_rule",
            some (safety_quality_override_rule ⟨110, 50, 10, 0⟩ "RUNNING"
              ⟨105, 85⟩ false).safety_level⟩)])
      = ConsolidationBranch.normal := by
  refine ⟨?_, ?_, execute_rules_loop_override_false, rfl⟩
  · norm_num [safety_quality_override_rule]
  · norm_num [safety_quality_override_rule]

/-- Counterexample to C7: a concrete engine run in which the first rule raises
a `TypeError` and the second returns a dict.  The loop's `rule_results` holds
only the successful rule: the failed rule leaves no abstention entry, no
diagnostic record — only the `logger.error` side channel. -/
theorem failed_rule_leaves_no_abstention_entry :
    (execute_rules_loop
        [("humidity_curing_rule", Except.error "TypeError: 2 positional arguments expected"),
         ("temperature_efficiency_rule",
           Except.ok ⟨"temperature_efficiency_rule", none⟩)]).rule_results
      = [⟨"temperature_efficiency_rule", none⟩] ∧
    ((execute_rules_loop
        [("humidity_curing_rule", Except.error "TypeError: 2 positional arguments expected"),
         ("temperature_efficiency_rule",
           Except.ok ⟨"temperature_efficiency_rule", none⟩)]).rule_results.filter
        (fun r => r.rule_name == "humidity_curing_rule")) = [] := by
  constructor
  · rfl
  · rfl

/-- The successful invocations of an outcome list, in order, with `rule_name`
written the way the loop writes it. -/
def okResults : List (String × Except String RuleResult) → List RuleResult
  | [] => []
  | (nm, Except.ok r) :: rest => { r with rule_name := nm } :: okResults rest
  | (_, Except.error _) :: rest => okResults rest

/-- Claim C7 as amended: for every outcome list, a raising rule is caught and
skipped — logged only, with NO abstention entry recorded for it — while every
remaining rule is still evaluated: `rule_results` is exactly the successful
rules' dicts in order, and a consolidated result is still produced (always via
the normal branch, since the `hasattr` test also never sets
`override_required`). -/
theorem rule_failure_isolated_but_unrecorded
    (outcomes : List (String × Except String RuleResult)) :
    (execute_rules_loop outcomes).rule_results = okResults outcomes ∧
    consolidate_recommendations_branch (execute_rules_loop outcomes)
      = ConsolidationBranch.normal := by
  constructor
  · induction outcomes with
    | nil => rfl
    | cons p rest ih =>
      obtain ⟨nm, oc⟩ := p
      cases oc with
      | ok r => simp [execute_rules_loop, okResults, ih]
      | error e => simpa [execute_rules_loop, okResults] using ih
  · unfold consolidate_recommendations_branch
    rw [execute_rules_loop_override_false]
    rfl

/-- The `hold_release_flag` values of the rule-table output contract. -/
inductive HoldFlag
  | HOLD
  | RELEASE
  | CONTINUE
deriving DecidableEq

/-- A precipitation-rule recommendation: the hold flag and alert level it
sets. -/
structure PrecipRecommendation where
  hold_release_flag : HoldFlag
  alert_level : String
deriving DecidableEq

/-- Modelled from the spec: Rule 2 "Active Precipitation Response" of
`src/20_logic/heuristics_rules.md` — trigger: rainfall above 1.5 inches in
24 h; actions: production HOLD with HIGH alert; below the trigger the rule
abstains.  The rule's executable body is not present in the repository, only
this declarative table entry. -/
def active_precipitation_rule (rainfall_24h : ℚ) : Option PrecipRecommendation :=
  if rainfall_24h > 1.5 then some ⟨HoldFlag.HOLD, "HIGH"⟩ else none

/-- Modelled from the spec: hold-flag consolidation (spec §4.4 step 3,
and the rule table's "Safety Priority: Override all other rules") — a HOLD
recommendation always wins over RELEASE and CONTINUE, irrespective of the
other contributing rules.  The consolidator body is not present in the
repository. -/
def consolidateHold (flags : List HoldFlag) : HoldFlag :=
  if flags.contains HoldFlag.HOLD then HoldFlag.HOLD
  else if flags.contains HoldFlag.RELEASE then HoldFlag.RELEASE
  else HoldFlag.CONTINUE

/-- Severity rank of the alert-level strings (LOW < MEDIUM < HIGH <
CRITICAL). -/
def alertRank (a : String) : Nat :=
  if a = "CRITICAL" then 3
  else if a = "HIGH" then 2
  else if a = "MEDIUM" then 1
  else 0

/-- Modelled from the spec: alert aggregation (spec §4.4 step 4) — the
consolidated `alert_level` is the maximum severity among contributing rules.
The consolidator body is not present in the repository. -/
def consolidateAlert (alerts : List String) : String :=
  alerts.foldl (fun a b => if alertRank a < alertRank b then b else a) "LOW"

/-- Claim C8 (Scenario B): with 24-hour rainfall 2.0 in (above the 1.5 in
trigger) the precipitation rule fires HOLD with HIGH alert; with temperature
75 °F the temperature rule is the optimal-band no-op (status OPTIMAL, alert
LOW, parameters unchanged); and the consolidated hold flag is HOLD whatever
flag the temperature rule contributes. -/
theorem precipitation_hold_dominates_consolidation (d c : ℚ) :
    active_precipitation_rule 2.0 = some ⟨HoldFlag.HOLD, "HIGH"⟩ ∧
    (temperature_efficiency_rule 75 d c).production_status = "OPTIMAL" ∧
    (temperature_efficiency_rule 75 d c).alert_level = "LOW" ∧
    (temperature_efficiency_rule 75 d c).adjusted_dryer_temp = d ∧
    (temperature_efficiency_rule 75 d c).adjusted_cooling_rate = c ∧
    (∀ f : HoldFlag, consolidateHold [HoldFlag.HOLD, f] = HoldFlag.HOLD) := by
  refine ⟨?_, ?_, ?_, ?_, ?_, fun f => rfl⟩
  · norm_num [active_precipitation_rule]
  · norm_num [temperature_efficiency_rule]
  · norm_num [temperature_efficiency_rule]
  · norm_num [temperature_efficiency_rule]
  · norm_num [temperature_efficiency_rule]

/-- Claim C9 (Scenario A): with humidity 78% the humidity rule fires its top
tier — adjustment factor 1.30, pre-mix time increased by 30%, alert HIGH; with
24-hour rainfall 0.2 in the precipitation rule abstains (below the 1.5 in
trigger); with temperature 80 °F the temperature rule contributes only LOW;
and the consolidated alert level is HIGH. -/
theorem humidity_critical_tier_scenario (b d c : ℚ) :
    (humidity_curing_rule 78 b).adjustment_factor = 1.30 ∧
    (humidity_curing_rule 78 b).adjusted_pre_mix_time = b * 1.30 ∧
    (humidity_curing_rule 78 b).alert_level = "HIGH" ∧
    active_precipitation_rule 0.2 = none ∧
    (temperature_efficiency_rule 80 d c).alert_level = "LOW" ∧
    consolidateAlert [(humidity_curing_rule 78 b).alert_level,
      (temperature_efficiency_rule 80 d c).alert_level] = "HIGH" := by
  have hh : (humidity_curing_rule 78 b).alert_level = "HIGH" := by
    norm_num [humidity_curing_rule]
  have ht : (temperature_efficiency_rule 80 d c).alert_level = "LOW" := by
    norm_num [temperature_efficiency_rule]
  refine ⟨?_, ?_, hh, ?_, ht, ?_⟩
  · norm_num [humidity_curing_rule]
  · norm_num [humidity_curing_rule]
  · norm_num [active_precipitation_rule]
  · rw [hh, ht]
    rfl
